import Mathlib

/-!
Verification of the credential-management page of the
Cli-Proxy-API-Management-Center repository
(`src/pages/CodexCredentialsPage.tsx`).

The derived-state and optimistic-update pipeline is embedded
shallowly: pure derived values (`credentialItems`, `filteredItems`,
`chartData`, `toggleSelectAll`) become Lean functions over the page
data, and the two asynchronous mutators (`toggleConfig`, `batchToggle`)
become functions from the pre-call page state and the outcome of the
persistence call to the settled page state.

Helper functions imported by the page from `@/components/providers/utils`
and `@/utils/format` are not part of the sources; they are modelled from
the specification and marked as such in their doc comments.
-/

namespace CodexCredentials

/-- Per-record usage counters (`KeyStatBucket` from `@/utils/usage`). -/
structure KeyStatBucket where
  success : Nat
  failure : Nat
  deriving Repr, DecidableEq

/-- A raw credential record (`ProviderKeyConfig` from `@/types`).
The source field `prefix` is a Lean keyword and is embedded as `pfx`. -/
structure ProviderKeyConfig where
  apiKey : String
  baseUrl : Option String
  proxyUrl : Option String
  pfx : Option String
  excludedModels : Option (List String)
  deriving Repr, DecidableEq

/-- JavaScript whitespace test used by `String.prototype.trim`. -/
def isJsSpace (c : Char) : Bool :=
  c = ' ' || c = '\t' || c = '\n' || c = '\r' || c = '\x0c' || c = '\x0b'

/-- JavaScript `String.prototype.trim`: strips leading and trailing
whitespace, embedded over the character list. -/
def jsTrim (s : String) : String :=
  String.mk (((s.data.dropWhile isJsSpace).reverse.dropWhile isJsSpace).reverse)

/-- JavaScript `String.prototype.toLowerCase`, embedded over the
character list. -/
def jsToLower (s : String) : String :=
  String.mk (s.data.map Char.toLower)

/-- Modelled from the spec: `hasDisableAllModelsRule` (imported from
`@/components/providers/utils`, not in the sources) scans the
excluded-models list for a sentinel value meaning "all models excluded";
the page itself treats entries whose trimmed text is an asterisk as that
sentinel when rendering. -/
def hasDisableAllModelsRule (models : Option (List String)) : Bool :=
  (models.getD []).any (fun m => jsTrim m == "*")

/-- Modelled from the spec: `withDisableAllModelsRule` (imported from
`@/components/providers/utils`, not in the sources) returns the
excluded-models list with the disable-all sentinel present. -/
def withDisableAllModelsRule (models : Option (List String)) : List String :=
  let l := models.getD []
  if l.any (fun m => jsTrim m == "*") then l else l ++ ["*"]

/-- Modelled from the spec: `withoutDisableAllModelsRule` (imported from
`@/components/providers/utils`, not in the sources) returns the
excluded-models list with the disable-all sentinel removed. -/
def withoutDisableAllModelsRule (models : Option (List String)) : List String :=
  (models.getD []).filter (fun m => !(jsTrim m == "*"))

/-- Modelled from the spec: `getStatsBySource` (imported from
`@/components/providers/utils`, not in the sources) joins the usage-stat
collection to a record by a best-effort key (the trimmed source prefix
when present, the api key otherwise), summing every matching bucket and
falling back to zero stats on no match. -/
def getStatsBySource (apiKey : String) (keyStats : List (String × KeyStatBucket))
    (pfx : Option String) : KeyStatBucket :=
  let key :=
    match pfx with
    | some p => if jsTrim p ≠ "" then jsTrim p else jsTrim apiKey
    | none => jsTrim apiKey
  keyStats.foldl
    (fun acc e =>
      if jsTrim e.1 == key then
        { success := acc.success + e.2.success, failure := acc.failure + e.2.failure }
      else acc)
    { success := 0, failure := 0 }

/-- Modelled from the spec: `maskApiKey` (imported from `@/utils/format`,
not in the sources) produces a masked-identifier label for a key: short
keys are fully starred, longer keys keep their first four characters. -/
def maskApiKey (key : String) : String :=
  if key.data.length ≤ 8 then String.mk (key.data.map (fun _ => '*'))
  else String.mk (key.data.take 4) ++ "****"

/-- A decorated credential record (`CredentialItem` in the page). -/
structure CredentialItem extends ProviderKeyConfig where
  _index : Nat
  _disabled : Bool
  _stats : KeyStatBucket
  deriving Repr, DecidableEq

/-- The normalizer (`credentialItems` memo, lines 123-132): decorates
each raw record with its position, the derived disabled flag, and the
joined usage stats. -/
def credentialItems (configs : List ProviderKeyConfig)
    (keyStats : List (String × KeyStatBucket)) : List CredentialItem :=
  configs.mapIdx (fun idx cfg =>
    { toProviderKeyConfig := cfg
      _index := idx
      _disabled := hasDisableAllModelsRule cfg.excludedModels
      _stats := getStatsBySource cfg.apiKey keyStats cfg.pfx })

/-- The status-filter selector (`StatusFilter` type in the page). -/
inductive StatusFilter
  | all
  | active
  | disabled
  deriving Repr, DecidableEq

/-- The three filter inputs of the page (`searchText`, `statusFilter`,
`prefixFilter` state hooks). -/
structure FilterState where
  searchText : String
  statusFilter : StatusFilter
  prefixFilter : String
  deriving Repr, DecidableEq

/-- JavaScript `String.prototype.includes`: substring containment,
embedded as infix containment of the character lists. -/
def containsSub (s kw : String) : Bool :=
  decide (kw.data <:+: s.data)

/-- The predicate of the search stage (lines 165-170): case-insensitive
substring match against `apiKey`, `baseUrl` and the prefix field. -/
def matchesSearch (kw : String) (item : CredentialItem) : Bool :=
  containsSub (jsToLower item.apiKey) kw ||
  containsSub (jsToLower (item.baseUrl.getD "")) kw ||
  containsSub (jsToLower (item.pfx.getD "")) kw

/-- The filter pipeline (`filteredItems` memo, lines 159-186): text
search, then status filter, then prefix filter. -/
def filteredItems (items : List CredentialItem) (s : FilterState) : List CredentialItem :=
  let items1 :=
    if jsTrim s.searchText ≠ "" then
      items.filter (matchesSearch (jsToLower (jsTrim s.searchText)))
    else items
  let items2 :=
    match s.statusFilter with
    | StatusFilter.active => items1.filter (fun item => !item._disabled)
    | StatusFilter.disabled => items1.filter (fun item => item._disabled)
    | StatusFilter.all => items1
  let items3 :=
    if s.prefixFilter ≠ "" then
      items2.filter (fun item => jsTrim (item.pfx.getD "") == s.prefixFilter)
    else items2
  items3

/-- Notification severities accepted by `showNotification`. -/
inductive Severity
  | success
  | warning
  | error
  deriving Repr, DecidableEq

/-- The page state touched by the mutators: the configuration list, the
in-flight save flag, the selection set, the page-level error message,
the value pushed to the config store (`updateConfigValue`), and the
notifications emitted so far (`showNotification` appends). -/
structure PageState where
  configs : List ProviderKeyConfig
  saving : Bool
  selectedKeys : Finset Nat
  errorMsg : String
  storeValue : Option (List ProviderKeyConfig)
  notifications : List (String × Severity)
  deriving DecidableEq

/-- The single-item mutator (`toggleConfig`, lines 195-230), as a
function from the pre-call state, the guard input, the arguments and the
outcome of the `saveCodexConfigs` persistence call to the settled state.
`Except.error msg` is a rejected call whose reason renders as `msg`. -/
def toggleConfig (st : PageState) (disableControls : Bool) (index : Nat) (enabled : Bool)
    (saveResult : Except String Unit) : PageState :=
  if disableControls || st.saving then st
  else
    let previousList := st.configs
    match st.configs[index]? with
    | none => { st with saving := false }
    | some current =>
        let nextExcluded :=
          if enabled then withoutDisableAllModelsRule current.excludedModels
          else withDisableAllModelsRule current.excludedModels
        let nextItem : ProviderKeyConfig := { current with excludedModels := some nextExcluded }
        let nextList := st.configs.mapIdx (fun idx item => if idx = index then nextItem else item)
        match saveResult with
        | Except.ok _ =>
            { st with
              configs := nextList
              saving := false
              storeValue := some nextList
              notifications := st.notifications ++
                [(if enabled then "notification.config_enabled"
                  else "notification.config_disabled", Severity.success)] }
        | Except.error msg =>
            { st with
              configs := previousList
              saving := false
              storeValue := some previousList
              notifications := st.notifications ++
                [("notification.update_failed: " ++ msg, Severity.error)] }

/-- The batch mutator (`batchToggle`, lines 233-266): flips every
selected record, issues one whole-list persistence call, clears the
selection on success and rolls the whole list back on failure. -/
def batchToggle (st : PageState) (disableControls : Bool) (enabled : Bool)
    (saveResult : Except String Unit) : PageState :=
  if disableControls || st.saving || st.selectedKeys.card = 0 then st
  else
    let previousList := st.configs
    let nextList := st.configs.mapIdx (fun idx item =>
      if idx ∈ st.selectedKeys then
        let nextExcluded :=
          if enabled then withoutDisableAllModelsRule item.excludedModels
          else withDisableAllModelsRule item.excludedModels
        { item with excludedModels := some nextExcluded }
      else item)
    match saveResult with
    | Except.ok _ =>
        { st with
          configs := nextList
          saving := false
          storeValue := some nextList
          selectedKeys := ∅
          notifications := st.notifications ++
            [("codex_credentials.batch_success", Severity.success)] }
    | Except.error msg =>
        { st with
          configs := previousList
          saving := false
          storeValue := some previousList
          notifications := st.notifications ++
            [("notification.update_failed: " ++ msg, Severity.error)] }

/-- The select-all toggle (`toggleSelectAll`, lines 269-275): clear when
the selection size equals the length of the filtered list, otherwise select
exactly the indices of the filtered items. -/
def toggleSelectAll (selectedKeys : Finset Nat) (filtered : List CredentialItem) : Finset Nat :=
  if selectedKeys.card = filtered.length then ∅
  else (filtered.map (fun item => item._index)).toFinset

/-- The single-item selection toggle (`toggleSelect`, lines 277-287). -/
def toggleSelect (selectedKeys : Finset Nat) (index : Nat) : Finset Nat :=
  if index ∈ selectedKeys then selectedKeys.erase index
  else insert index selectedKeys

/-- The label/series arrays produced by the chart adapter. -/
structure ChartData where
  labels : List String
  successData : List Nat
  failureData : List Nat
  deriving Repr, DecidableEq

/-- The chart adapter (`chartData` memo, lines 290-323): one label and
one success/failure pair per decorated record, the label being the
prefix of the record when set and non-empty, else the masked api key. -/
def chartData (items : List CredentialItem) : ChartData :=
  { labels := items.map (fun item =>
      if (item.pfx.getD "") ≠ "" then item.pfx.getD "" else maskApiKey item.apiKey)
    successData := items.map (fun item => item._stats.success)
    failureData := items.map (fun item => item._stats.failure) }

/-! ## Spec-side reference predicate for the filter pipeline -/

/-- Reference predicate following the wording of the spec: a record passes the
filter when it passes all three stages — text search (skipped for a
blank query), status filter, and prefix filter (skipped for an empty
prefix selection). -/
def passesFilter (s : FilterState) (item : CredentialItem) : Bool :=
  (jsTrim s.searchText == "" || matchesSearch (jsToLower (jsTrim s.searchText)) item) &&
  (match s.statusFilter with
   | StatusFilter.all => true
   | StatusFilter.active => !item._disabled
   | StatusFilter.disabled => item._disabled) &&
  (s.prefixFilter == "" || jsTrim (item.pfx.getD "") == s.prefixFilter)

/-! ## Helper lemmas -/

theorem filteredItems_eq_filter_passes (items : List CredentialItem) (s : FilterState) :
    filteredItems items s = items.filter (passesFilter s) := by
  unfold filteredItems passesFilter
  by_cases h1 : jsTrim s.searchText = "" <;> by_cases h2 : s.prefixFilter = ""
  · cases s3 : s.statusFilter <;> simp [h1, h2, s3, List.filter_filter]
  · have h2b : (s.prefixFilter == "") = false := beq_eq_false_iff_ne.mpr h2
    cases s3 : s.statusFilter <;> simp [h1, h2, h2b, s3, List.filter_filter] <;>
      exact List.filter_congr (fun x _ => by
        simp [Bool.and_comm, Bool.and_left_comm, Bool.and_assoc])
  · have h1b : (jsTrim s.searchText == "") = false := beq_eq_false_iff_ne.mpr h1
    cases s3 : s.statusFilter <;> simp [h1, h1b, h2, s3, List.filter_filter] <;>
      exact List.filter_congr (fun x _ => by
        simp [Bool.and_comm, Bool.and_left_comm, Bool.and_assoc])
  · have h1b : (jsTrim s.searchText == "") = false := beq_eq_false_iff_ne.mpr h1
    have h2b : (s.prefixFilter == "") = false := beq_eq_false_iff_ne.mpr h2
    cases s3 : s.statusFilter <;> simp [h1, h1b, h2, h2b, s3, List.filter_filter] <;>
      exact List.filter_congr (fun x _ => by
        simp [Bool.and_comm, Bool.and_left_comm, Bool.and_assoc])

theorem hasDisableAll_with (m : Option (List String)) :
    hasDisableAllModelsRule (some (withDisableAllModelsRule m)) = true := by
  unfold hasDisableAllModelsRule withDisableAllModelsRule
  by_cases h : (m.getD []).any (fun x => jsTrim x == "*")
  · simp [h]
  · simp [h]
    decide

theorem hasDisableAll_without (m : Option (List String)) :
    hasDisableAllModelsRule (some (withoutDisableAllModelsRule m)) = false := by
  unfold hasDisableAllModelsRule withoutDisableAllModelsRule
  simp

/-! ## Concrete fixtures used by scenarios, witnesses and counterexamples -/

/-- An enabled credential record. -/
def cfgA : ProviderKeyConfig :=
  { apiKey := "a", baseUrl := none, proxyUrl := none, pfx := none, excludedModels := none }

/-- A disabled credential record (its excluded-models list carries the
disable-all sentinel). -/
def cfgB : ProviderKeyConfig :=
  { apiKey := "b", baseUrl := none, proxyUrl := none, pfx := none, excludedModels := some ["*"] }

/-- The decorated form of `cfgA` at position 0. -/
def itemA : CredentialItem :=
  { toProviderKeyConfig := cfgA, _index := 0, _disabled := false,
    _stats := { success := 0, failure := 0 } }

/-- The decorated form of `cfgB` at position 1. -/
def itemB : CredentialItem :=
  { toProviderKeyConfig := cfgB, _index := 1, _disabled := true,
    _stats := { success := 0, failure := 0 } }

/-- A quiescent page state holding `[cfgA, cfgB]`. -/
def st0 : PageState :=
  { configs := [cfgA, cfgB], saving := false, selectedKeys := ∅, errorMsg := "",
    storeValue := none, notifications := [] }

/-- `st0` with record 0 selected. -/
def stSel : PageState :=
  { st0 with selectedKeys := {0} }

/-- A record with a non-empty prefix and an api key, with some usage. -/
def cfgP : ProviderKeyConfig :=
  { apiKey := "sk-secret-key", baseUrl := none, proxyUrl := none,
    pfx := some "team", excludedModels := none }

/-- The decorated form of `cfgP` at position 0. -/
def itemP : CredentialItem :=
  { toProviderKeyConfig := cfgP, _index := 0, _disabled := false,
    _stats := { success := 3, failure := 1 } }

/-! ## Claim theorems -/

/-- C3: the filter pipeline equals the reference definition of the spec: its
output is a subsequence of the input (order preserved, no reordering)
containing exactly the records that pass all three stages applied in the
fixed order text search, status, prefix; in particular, for the two-record
scenario with status filter `active`, exactly the enabled record
survives. -/
theorem filteredItems_is_staged_filter :
    (∀ (items : List CredentialItem) (s : FilterState),
        filteredItems items s = items.filter (passesFilter s) ∧
        (filteredItems items s).Sublist items) ∧
    filteredItems [itemA, itemB]
        { searchText := "", statusFilter := StatusFilter.active, prefixFilter := "" } =
      [itemA] := by
  refine ⟨fun items s => ⟨filteredItems_eq_filter_passes items s, ?_⟩, ?_⟩
  · rw [filteredItems_eq_filter_passes]
    exact List.filter_sublist items
  · decide

/-- C4: filtering with a blank (empty or whitespace-only) search text,
status filter `all` and an empty prefix filter is the identity: the blank
stages are no-ops that match everything. -/
theorem filteredItems_neutral_identity (items : List CredentialItem) (w : String)
    (hw : jsTrim w = "") :
    filteredItems items
        { searchText := w, statusFilter := StatusFilter.all, prefixFilter := "" } = items := by
  unfold filteredItems
  simp [hw]

/-- Witness for C4 at a whitespace-only query and a concrete list. -/
theorem filteredItems_neutral_identity_witness :
    jsTrim "   " = "" ∧
    filteredItems [itemA, itemB]
        { searchText := "   ", statusFilter := StatusFilter.all, prefixFilter := "" } =
      [itemA, itemB] :=
  ⟨by decide, filteredItems_neutral_identity [itemA, itemB] "   " (by decide)⟩

/-- C5: the filter pipeline is idempotent: applying it twice with the
same filter state gives the same result as applying it once. -/
theorem filteredItems_idempotent (items : List CredentialItem) (s : FilterState) :
    filteredItems (filteredItems items s) s = filteredItems items s := by
  simp only [filteredItems_eq_filter_passes, List.filter_filter, Bool.and_self]

/-- C6: the normalizer is total, deterministic, length- and
order-preserving: the output has the length of the input, and the i-th output
is exactly the i-th input decorated with its position, derived disabled
flag, and joined stats. -/
theorem credentialItems_total_order_preserving (configs : List ProviderKeyConfig)
    (keyStats : List (String × KeyStatBucket)) :
    (credentialItems configs keyStats).length = configs.length ∧
    ∀ i : Nat,
      (credentialItems configs keyStats)[i]? = (configs[i]?).map (fun cfg =>
        { toProviderKeyConfig := cfg
          _index := i
          _disabled := hasDisableAllModelsRule cfg.excludedModels
          _stats := getStatsBySource cfg.apiKey keyStats cfg.pfx }) := by
  constructor
  · simp [credentialItems]
  · intro i
    simp [credentialItems]

/-- C9 counterexample: the claim that every chart label is a
masked-identifier label for the key of the record fails on a record with a
non-empty prefix, whose label is the prefix itself. -/
theorem chartData_masked_label_refuted :
    (chartData [itemP]).labels ≠ [maskApiKey "sk-secret-key"] := by
  decide

/-- C9 (amended): the chart adapter includes every record unconditionally
with no cap and in order — labels and both series have the length of the
input, the i-th series entries are the stats of the i-th record — and each
label is the prefix of the record when set and non-empty, otherwise the
masked-identifier label for the key of the record. -/
theorem chartData_uncapped_spec (items : List CredentialItem) :
    (chartData items).labels.length = items.length ∧
    (chartData items).successData.length = items.length ∧
    (chartData items).failureData.length = items.length ∧
    (∀ i : Nat, (chartData items).successData[i]? =
      (items[i]?).map (fun item => item._stats.success)) ∧
    (∀ i : Nat, (chartData items).failureData[i]? =
      (items[i]?).map (fun item => item._stats.failure)) ∧
    (∀ i : Nat, (chartData items).labels[i]? =
      (items[i]?).map (fun item =>
        if (item.pfx.getD "") ≠ "" then item.pfx.getD "" else maskApiKey item.apiKey)) := by
  refine ⟨by simp [chartData], by simp [chartData], by simp [chartData], ?_, ?_, ?_⟩ <;>
    intro i <;> simp [chartData]

/-- The excluded-models list produced by a toggle to `enabled`
(the branch at lines 205-207 of the page). -/
def nextExcludedModels (enabled : Bool) (cfg : ProviderKeyConfig) : List String :=
  if enabled then withoutDisableAllModelsRule cfg.excludedModels
  else withDisableAllModelsRule cfg.excludedModels

/-- C1: single-item toggle rollback atomicity: when the guard passes,
the index is valid and the persistence call fails, the settled
configuration list equals the pre-toggle snapshot exactly and an error
notification carrying the failure reason is emitted. -/
theorem toggleConfig_rollback_on_failure (st : PageState) (index : Nat) (enabled : Bool)
    (msg : String) (hs : st.saving = false) (hidx : index < st.configs.length) :
    (toggleConfig st false index enabled (Except.error msg)).configs = st.configs ∧
    (toggleConfig st false index enabled (Except.error msg)).notifications =
      st.notifications ++ [("notification.update_failed: " ++ msg, Severity.error)] := by
  obtain ⟨current, hcur⟩ : ∃ c, st.configs[index]? = some c :=
    ⟨_, List.getElem?_eq_getElem hidx⟩
  unfold toggleConfig
  simp [hs, hcur]

/-- Witness for C1 on the concrete two-record state. -/
theorem toggleConfig_rollback_on_failure_witness :
    (toggleConfig st0 false 0 true (Except.error "boom")).configs = st0.configs ∧
    (toggleConfig st0 false 0 true (Except.error "boom")).notifications =
      st0.notifications ++ [("notification.update_failed: " ++ "boom", Severity.error)] :=
  toggleConfig_rollback_on_failure st0 0 true "boom" rfl (by decide)

/-- C2: single-item toggle success frame condition: when the guard
passes, the index is valid and the persistence call succeeds, the settled
list keeps its length, every record other than the target is unchanged,
the target keeps all fields except its excluded-models list, and the
derived disabled flag of the target becomes the negation of the requested
enabled flag. -/
theorem toggleConfig_success_frame (st : PageState) (index : Nat) (enabled : Bool)
    (hs : st.saving = false) (hidx : index < st.configs.length) :
    (toggleConfig st false index enabled (Except.ok ())).configs.length =
      st.configs.length ∧
    (∀ j : Nat, j ≠ index →
      (toggleConfig st false index enabled (Except.ok ())).configs[j]? = st.configs[j]?) ∧
    (toggleConfig st false index enabled (Except.ok ())).configs[index]? =
      (st.configs[index]?).map (fun current =>
        { current with excludedModels := some (nextExcludedModels enabled current) }) ∧
    ((toggleConfig st false index enabled (Except.ok ())).configs[index]?).map
        (fun c => hasDisableAllModelsRule c.excludedModels) = some (!enabled) := by
  obtain ⟨current, hcur⟩ : ∃ c, st.configs[index]? = some c :=
    ⟨_, List.getElem?_eq_getElem hidx⟩
  unfold toggleConfig
  refine ⟨?_, ?_, ?_, ?_⟩
  · simp [hs, hcur]
  · intro j hj
    simp [hs, hcur, hj]
  · simp [hs, hcur, nextExcludedModels]
  · cases enabled <;>
      simp [hs, hcur, hasDisableAll_with, hasDisableAll_without]

/-- Witness for C2 disabling record 0 of the concrete two-record state. -/
theorem toggleConfig_success_frame_witness :
    (toggleConfig st0 false 0 false (Except.ok ())).configs.length = st0.configs.length ∧
    (∀ j : Nat, j ≠ 0 →
      (toggleConfig st0 false 0 false (Except.ok ())).configs[j]? = st0.configs[j]?) ∧
    (toggleConfig st0 false 0 false (Except.ok ())).configs[0]? =
      (st0.configs[0]?).map (fun current =>
        { current with excludedModels := some (nextExcludedModels false current) }) ∧
    ((toggleConfig st0 false 0 false (Except.ok ())).configs[0]?).map
        (fun c => hasDisableAllModelsRule c.excludedModels) = some (!false) :=
  toggleConfig_success_frame st0 0 false rfl (by decide)

/-- C7: `toggleSelectAll` relative to the filtered view: when the
selection size equals the length of the filtered list it clears the
selection; otherwise it replaces the selection with exactly the filtered
indices of the filtered items, dropping previously selected indices outside the current
filter. -/
theorem toggleSelectAll_filtered_semantics (sel : Finset Nat) (filtered : List CredentialItem) :
    (sel.card = filtered.length → toggleSelectAll sel filtered = ∅) ∧
    (sel.card ≠ filtered.length →
      toggleSelectAll sel filtered = (filtered.map (fun item => item._index)).toFinset) := by
  constructor <;> intro h <;> simp [toggleSelectAll, h]

/-- Witness for C7 on the scenario of the spec: selecting all from a
one-element selection over a two-element filtered view yields both
indices, and a second call clears the selection. -/
theorem toggleSelectAll_filtered_semantics_witness :
    toggleSelectAll {0} [itemA, itemB] = ({0, 1} : Finset Nat) ∧
    toggleSelectAll {0, 1} [itemA, itemB] = (∅ : Finset Nat) := by
  constructor
  · have h := (toggleSelectAll_filtered_semantics {0} [itemA, itemB]).2 (by decide)
    rw [h]
    decide
  · exact (toggleSelectAll_filtered_semantics {0, 1} [itemA, itemB]).1 (by decide)

/-- C8: batch toggle selection and rollback policy (whole-list variant):
with a non-empty selection and a passing guard, the selection becomes
empty exactly when the single whole-list persistence call succeeds; on
failure the whole list is rolled back to the pre-batch snapshot, the
selection is left intact, and an error notification is emitted. -/
theorem batchToggle_selection_rollback (st : PageState) (enabled : Bool) (msg : String)
    (hs : st.saving = false) (hsel : st.selectedKeys ≠ ∅) :
    (batchToggle st false enabled (Except.ok ())).selectedKeys = ∅ ∧
    (batchToggle st false enabled (Except.error msg)).configs = st.configs ∧
    (batchToggle st false enabled (Except.error msg)).selectedKeys = st.selectedKeys ∧
    (batchToggle st false enabled (Except.error msg)).notifications =
      st.notifications ++ [("notification.update_failed: " ++ msg, Severity.error)] := by
  have hcard : st.selectedKeys.card ≠ 0 := fun h => hsel (Finset.card_eq_zero.mp h)
  unfold batchToggle
  simp [hs, hcard]

/-- Witness for C8 on the concrete state with record 0 selected. -/
theorem batchToggle_selection_rollback_witness :
    (batchToggle stSel false true (Except.ok ())).selectedKeys = ∅ ∧
    (batchToggle stSel false true (Except.error "boom")).configs = stSel.configs ∧
    (batchToggle stSel false true (Except.error "boom")).selectedKeys = stSel.selectedKeys ∧
    (batchToggle stSel false true (Except.error "boom")).notifications =
      stSel.notifications ++ [("notification.update_failed: " ++ "boom", Severity.error)] :=
  batchToggle_selection_rollback stSel true "boom" rfl (by decide)

/-- C10: a single-item toggle on an out-of-range index is a safe no-op:
it leaves the whole page state (configuration list, selection, error
message, notifications) unchanged with the save flag reset, and its
result does not depend on any persistence outcome, since no call is
issued. -/
theorem toggleConfig_out_of_range_noop (st : PageState) (index : Nat) (enabled : Bool)
    (r r2 : Except String Unit) (hs : st.saving = false)
    (hidx : st.configs.length ≤ index) :
    toggleConfig st false index enabled r = st ∧
    toggleConfig st false index enabled r = toggleConfig st false index enabled r2 := by
  have hn : st.configs[index]? = none := List.getElem?_eq_none hidx
  rcases st with ⟨cs, sv, sel, err, stv, nt⟩
  subst hs
  unfold toggleConfig
  simp [hn]

/-- Witness for C10 at index 2 of the concrete two-record state. -/
theorem toggleConfig_out_of_range_noop_witness :
    toggleConfig st0 false 2 true (Except.error "boom") = st0 ∧
    toggleConfig st0 false 2 true (Except.error "boom") =
      toggleConfig st0 false 2 true (Except.ok ()) :=
  toggleConfig_out_of_range_noop st0 2 true (Except.error "boom") (Except.ok ()) rfl
    (by decide)

end CodexCredentials
